import Mathlib

/-!
Verification development for the metadata generation / minification pipeline
(`metadata.py` and `minify_metadata.py`).

Python JSON values are embedded as the inductive type `Json` below; Python
dictionary subscripting (`data[key]`), which raises `KeyError`/`TypeError` on
a missing key or a non-dict receiver, is embedded as the `Option`-valued
lookup `Json.get?`.  Fallible Python code (code whose exceptions are caught
by a surrounding `try`/`except`) is embedded as `Option`-returning functions.
Numbers are embedded as rationals.
-/

/-- A JSON value, as produced by `json.load` / consumed by `json.dump`.
Objects keep their fields as an ordered association list (Python dicts
preserve insertion order and never hold duplicate keys). -/
inductive Json where
  | null : Json
  | bool : Bool → Json
  | num : ℚ → Json
  | str : String → Json
  | arr : List Json → Json
  | obj : List (String × Json) → Json

/-- Python `value[key]` on a JSON value: returns the field of an object,
`none` when the key is absent (`KeyError`) or the value is not an object
(`TypeError`). -/
def Json.get? : Json → String → Option Json
  | .obj fields, k => fields.lookup k
  | _, _ => none

/-- Chained subscripting `value[k1][k2]...`. -/
def Json.getPath : Json → List String → Option Json
  | j, [] => some j
  | j, k :: ks => (j.get? k).bind (fun j' => Json.getPath j' ks)

/-- A JSON value usable as a Python number (argument of `round`); anything
else raises `TypeError`, embedded as `none`. -/
def Json.asNum : Json → Option ℚ
  | .num q => some q
  | _ => none

/-- A JSON value usable as a Python list to iterate over in a list
comprehension. -/
def Json.asArr : Json → Option (List Json)
  | .arr xs => some xs
  | _ => none

/-- Python truthiness of a JSON value (`if data[...]:`). -/
def Json.truthy : Json → Bool
  | .null => false
  | .bool b => b
  | .num q => q != 0
  | .str s => s != ""
  | .arr xs => !xs.isEmpty
  | .obj fields => !fields.isEmpty

/-- `(j.get? k).bind Json.asNum`: look a numeric field up, as done by every
`round(data[...][k], 1)` call of the minifier. -/
def Json.getNum (j : Json) (k : String) : Option ℚ :=
  (j.get? k).bind Json.asNum

/-- Python 3 `round` to an integer: round-half-to-even (banker's rounding). -/
def roundHalfEven (x : ℚ) : ℤ :=
  let f := ⌊x⌋
  let r := x - f
  if r < 1/2 then f
  else if 1/2 < r then f + 1
  else if f % 2 = 0 then f else f + 1

/-- Python `round(x, 1)`: round to one decimal place, ties to even. -/
def pyRound1 (x : ℚ) : ℚ :=
  (roundHalfEven (10 * x) : ℚ) / 10

/-- First half of the hourly-entry lookups of `optimize_metadata`
(`minify_metadata.py`, lines 32-35). -/
def hourlyEntryA (h : Json) : Option (Json × ℚ × ℚ × ℚ) := do
  let t ← h.get? "time"
  let te ← h.getNum "temperature_2m"
  let p ← h.getNum "precipitation"
  let hu ← h.getNum "relative_humidity_2m"
  return (t, te, p, hu)

/-- The body of the hourly list comprehension of `optimize_metadata`
(`minify_metadata.py`, lines 31-39): one hourly weather entry reduced to the
compact keys, numeric fields rounded to one decimal. -/
def hourlyEntryOpt (h : Json) : Option Json := do
  let (t, te, p, hu) ← hourlyEntryA h
  let ws ← h.getNum "wind_speed_10m"
  let wd ← h.getNum "wind_direction_10m"
  let cc ← h.getNum "cloud_cover"
  let pr ← h.getNum "pressure_msl"
  return .obj [("t", t), ("te", .num (pyRound1 te)), ("p", .num (pyRound1 p)),
    ("h", .num (pyRound1 hu)), ("ws", .num (pyRound1 ws)),
    ("wd", .num (pyRound1 wd)), ("cc", .num (pyRound1 cc)),
    ("pr", .num (pyRound1 pr))]

/-- The hourly list comprehension itself: fails (propagating the exception)
as soon as one entry fails. -/
def hourlyList (f : Json → Option Json) : List Json → Option (List Json)
  | [] => some []
  | x :: xs => do
    let y ← f x
    let ys ← hourlyList f xs
    return y :: ys

/-- The `"wd"` (compacted weather data) sub-object of `optimize_metadata`
(`minify_metadata.py`, lines 29-42), as a function of
`data["token_details"]["world_conditions_on_mint"]`. -/
def buildWeatherD (wc : Json) : Option Json := do
  let wd ← wc.get? "weather_data"
  let hourly ← wd.get? "hourly"
  let hs ← hourly.asArr
  let hs' ← hourlyList hourlyEntryOpt hs
  return Json.obj [("h", Json.arr hs')]

/-- The rest of the `"w"` sub-object (`minify_metadata.py`, lines 21-43):
the five one-decimal roundings, the two image URLs copied unchanged, and the
compacted weather data. -/
def buildW (wc : Json) : Option Json := do
  let cp ← wc.getNum "co2_ppm"
  let gt ← wc.getNum "global_temperature_anomaly_c"
  let ch ← wc.getNum "ch4_ppb"
  let ai ← wc.getNum "arctic_sea_ice_min_extent_million_km2"
  let sl ← wc.getNum "sea_level_mm_above_ref"
  let ni ← wc.get? "nasa_image"
  let pi ← wc.get? "planetary_image"
  let wdObj ← buildWeatherD wc
  return Json.obj [("cp", Json.num (pyRound1 cp)), ("gt", Json.num (pyRound1 gt)),
    ("ch", Json.num (pyRound1 ch)), ("ai", Json.num (pyRound1 ai)),
    ("sl", Json.num (pyRound1 sl)), ("ni", ni), ("pi", pi),
    ("wd", wdObj)]

/-- The `"c"` (coordinates) sub-object of `optimize_metadata`
(`minify_metadata.py`, lines 17-20): the lookup
`data["token_details"]["coordinates"]` and its two fields. -/
def buildC (td : Json) : Option Json := do
  let co ← td.get? "coordinates"
  let la ← co.get? "latitude"
  let lo ← co.get? "longitude"
  return Json.obj [("la", la), ("lo", lo)]

/-- `optimize_metadata` (`minify_metadata.py`, lines 6-51).  Each distinct
dictionary subscript of the source is bound once, in the order Python first
evaluates it (repeated pure lookups such as `data["token_details"]` are bound
a single time, and the `"c"` and `"w"` sub-objects are split into `buildC`
and `buildW`); any `KeyError`/`TypeError` makes the whole call fail, which
the caller `minify_file` catches. -/
def optimizeMetadata (data : Json) : Option Json := do
  let v ← data.get? "metadata_version"
  let td ← data.get? "token_details"
  let ts ← td.get? "timestamp_minted"
  let sn ← td.get? "serial_number"
  let c ← buildC td
  let wc ← td.get? "world_conditions_on_mint"
  let w ← buildW wc
  let ach ← td.get? "achievements"
  return Json.obj [("a", Json.arr []), ("v", v),
    ("t", Json.obj ([("ts", ts), ("sn", sn), ("c", c), ("w", w)] ++
      if ach.truthy then [("ac", ach)] else []))]

/-- `minify_file` (`minify_metadata.py`, lines 53-72) acting on the content
of one file.  `none` stands for a file whose content is not parseable JSON.
On any exception the function returns `false` and the file is left
unchanged (the write only happens after `optimize_metadata` succeeded). -/
def minifyFile (content : Option Json) : Bool × Option Json :=
  match content with
  | none => (false, none)
  | some j =>
    match optimizeMetadata j with
    | some out => (true, some out)
    | none => (false, some j)

/-- `process_batch` (`minify_metadata.py`, lines 74-82): the running
`success_count` accumulator over the files of one batch. -/
def processBatch (files : List (Option Json)) : ℕ :=
  files.foldl (fun acc f => if (minifyFile f).1 then acc + 1 else acc) 0

/-- The engine's aggregation loop (`minify_metadata.py`, lines 106-109):
`success_count += batch_success` over the batch results in the order the
pool delivers them. -/
def aggregateCounts (batchResults : List ℕ) : ℕ :=
  batchResults.foldl (fun acc c => acc + c) 0

/-- Python `f.endswith(".txt")`. -/
def endsWithTxt (f : String) : Bool :=
  f.data.drop (f.data.length - 4) == ".txt".data

/-- The way `main` can die before printing its report. -/
inductive MainError where
  | rangeStepZero
  | divisionByZero

/-- `main` (`minify_metadata.py`, lines 84-118) as a function of the
directory listing, of the parsed content of each file and of the number of
worker processes (`multiprocessing.cpu_count()`, always at least 1).
`range(0, total_files, batch_size)` raises `ValueError` when its step is 0,
embedded as `MainError.rangeStepZero`; the final success-rate division
raises `ZeroDivisionError` when `total_files = 0`, embedded as
`MainError.divisionByZero`.  Both error points are kept at the position the
source reaches them. -/
def mainModel (listing : List String) (content : String → Option Json)
    (numProcesses : ℕ) : Except MainError ℚ :=
  let files := listing.filter (fun f => endsWithTxt f)
  let totalFiles := files.length
  let batchSize := (totalFiles + numProcesses - 1) / numProcesses
  if batchSize = 0 then .error .rangeStepZero
  else
    let fileBatches := (List.range ((totalFiles + batchSize - 1) / batchSize)).map
      (fun k => ((files.drop (k * batchSize)).take batchSize).map content)
    let successCount := aggregateCounts (fileBatches.map processBatch)
    if totalFiles = 0 then .error .divisionByZero
    else .ok ((successCount : ℚ) / (totalFiles : ℚ) * 100)

/-! ## `metadata.py`: dates and timestamps -/

/-- `random_date(start, end)` (`metadata.py`, lines 24-31), with instants as
whole seconds.  `randomSecond` is the value `random.randint(0, int_delta)`
returned; the function adds it to `start`.  `randint`'s guarantee
`0 ≤ randomSecond ≤ stop - start` is a hypothesis of the theorems. -/
def randomDate (start _stop randomSecond : ℕ) : ℕ :=
  start + randomSecond

/-- Days since 1970-01-01 of a proleptic-Gregorian date, as computed by
Python's `datetime` (valid for the years used here). -/
def daysFromCivil (y m d : ℕ) : ℕ :=
  let y' := if m ≤ 2 then y - 1 else y
  let era := y' / 400
  let yoe := y' % 400
  let mp := if 2 < m then m - 3 else m + 9
  let doy := (153 * mp + 2) / 5 + d - 1
  let doe := yoe * 365 + yoe / 4 - yoe / 100 + doy
  era * 146097 + doe - 719468

/-- Inverse of `daysFromCivil`: the (year, month, day) that Python's
`datetime` carries for a given day number. -/
def civilFromDays (z : ℕ) : ℕ × ℕ × ℕ :=
  let z' := z + 719468
  let era := z' / 146097
  let doe := z' % 146097
  let yoe := (doe - doe / 1460 + doe / 36524 - doe / 146096) / 365
  let doy := doe - (365 * yoe + yoe / 4 - yoe / 100)
  let mp := (5 * doy + 2) / 153
  let d := doy - (153 * mp + 2) / 5 + 1
  let m := if mp < 10 then mp + 3 else mp - 9
  let y := yoe + era * 400
  (if m ≤ 2 then y + 1 else y, m, d)

/-- The calendar fields a Python `datetime` exposes to `strftime`. -/
structure CivilDT where
  year : ℕ
  month : ℕ
  day : ℕ
  hour : ℕ
  minute : ℕ
  second : ℕ
deriving Repr, DecidableEq

/-- The `datetime` denoted by an instant in whole seconds since
1970-01-01T00:00:00. -/
def civilFromSeconds (t : ℕ) : CivilDT :=
  let ymd := civilFromDays (t / 86400)
  let sod := t % 86400
  ⟨ymd.1, ymd.2.1, ymd.2.2, sod / 3600, sod % 3600 / 60, sod % 60⟩

/-- Seconds since 1970-01-01T00:00:00 of `datetime(y, m, d, h, mi, s)`. -/
def secondsOfCivil (y m d h mi s : ℕ) : ℕ :=
  daysFromCivil y m d * 86400 + h * 3600 + mi * 60 + s

/-- `start_date = datetime(2024, 1, 1, 0, 0, 0)` (`metadata.py`, line 228). -/
def startSec : ℕ := secondsOfCivil 2024 1 1 0 0 0

/-- `end_date = datetime(2025, 4, 2, 23, 59, 59)` (`metadata.py`, line 229). -/
def endSec : ℕ := secondsOfCivil 2025 4 2 23 59 59

/-- `int_delta = int(delta.total_seconds())` inside `random_date` for the
configured range. -/
def intDelta : ℕ := endSec - startSec

/-- Two-digit zero-padded decimal rendering (`strftime` `%m`, `%d`, `%H`,
`%M`, `%S`, `%y`). -/
def pad2 (n : ℕ) : List Char :=
  [Nat.digitChar (n / 10 % 10), Nat.digitChar (n % 10)]

/-- Four-digit zero-padded decimal rendering (`strftime` `%Y` for the years
in use). -/
def pad4 (n : ℕ) : List Char :=
  [Nat.digitChar (n / 1000 % 10), Nat.digitChar (n / 100 % 10),
   Nat.digitChar (n / 10 % 10), Nat.digitChar (n % 10)]

/-- `minted_datetime.strftime("%Y-%m-%dT%H:%M:%SZ")` (`metadata.py`,
line 261), as the list of characters of the string. -/
def fmtISO (dt : CivilDT) : List Char :=
  pad4 dt.year ++ '-' :: pad2 dt.month ++ '-' :: pad2 dt.day ++
    'T' :: pad2 dt.hour ++ ':' :: pad2 dt.minute ++ ':' :: pad2 dt.second ++ ['Z']

/-- `minted_datetime.strftime("%Y-%m-%d")` (`metadata.py`, line 262). -/
def fmtDateOnly (dt : CivilDT) : List Char :=
  pad4 dt.year ++ '-' :: pad2 dt.month ++ '-' :: pad2 dt.day

/-- `minted_datetime.strftime("%y%m%d")` (`metadata.py`, line 263). -/
def fmtCompact (dt : CivilDT) : List Char :=
  pad2 (dt.year % 100) ++ pad2 dt.month ++ pad2 dt.day

/-- Numeric value of a decimal digit character. -/
def charVal (c : Char) : ℕ :=
  c.toNat - 48

/-- Read back the calendar date a `%Y-%m-%d` string denotes. -/
def decodeDateOnly : List Char → Option (ℕ × ℕ × ℕ)
  | [y1, y2, y3, y4, '-', m1, m2, '-', d1, d2] =>
    if y1.isDigit && y2.isDigit && y3.isDigit && y4.isDigit &&
        m1.isDigit && m2.isDigit && d1.isDigit && d2.isDigit then
      some (1000 * charVal y1 + 100 * charVal y2 + 10 * charVal y3 + charVal y4,
        10 * charVal m1 + charVal m2, 10 * charVal d1 + charVal d2)
    else none
  | _ => none

/-- Read back the instant a `%Y-%m-%dT%H:%M:%SZ` string denotes. -/
def decodeISO : List Char → Option (ℕ × ℕ × ℕ × ℕ × ℕ × ℕ)
  | [y1, y2, y3, y4, '-', m1, m2, '-', d1, d2, 'T',
     h1, h2, ':', n1, n2, ':', s1, s2, 'Z'] =>
    if y1.isDigit && y2.isDigit && y3.isDigit && y4.isDigit &&
        m1.isDigit && m2.isDigit && d1.isDigit && d2.isDigit &&
        h1.isDigit && h2.isDigit && n1.isDigit && n2.isDigit &&
        s1.isDigit && s2.isDigit then
      some (1000 * charVal y1 + 100 * charVal y2 + 10 * charVal y3 + charVal y4,
        10 * charVal m1 + charVal m2, 10 * charVal d1 + charVal d2,
        10 * charVal h1 + charVal h2, 10 * charVal n1 + charVal n2,
        10 * charVal s1 + charVal s2)
    else none
  | _ => none

/-- Read back the two-digit year, month and day a `%y%m%d` string denotes. -/
def decodeCompact : List Char → Option (ℕ × ℕ × ℕ)
  | [y1, y2, m1, m2, d1, d2] =>
    if y1.isDigit && y2.isDigit && m1.isDigit && m2.isDigit &&
        d1.isDigit && d2.isDigit then
      some (10 * charVal y1 + charVal y2, 10 * charVal m1 + charVal m2,
        10 * charVal d1 + charVal d2)
    else none
  | _ => none

/-! ## `metadata.py`: achievements, record assembly, generation loop -/

/-- `achievements_template` (`metadata.py`, lines 232-249). -/
def achievementsTemplate : List Json :=
  [.obj [("project_name", .str "Legado Early - Guania Colombia"),
     ("description", .str "Before going sale, Legado has helped communities in the Guania region of Colombia to protect 20,000 hectares of rainforest, preventing deforestation and conserving biodiversity."),
     ("current_status", .str "Up to 8 communities are now involved in the project, with 100% of the land protected from deforestation."),
     ("region", .str "Amazon Rainforest, Colombia"),
     ("co2_sequestered_estimate_tonnes", .num 4),
     ("deforestation_prevented_km2", .num 5)],
   .obj [("project_name", .str "Legado Early - Africa"),
     ("description", .str "Legado Africa is a project that aims to give access to clean water to 1 million people in Africa by 2030."),
     ("current_status", .str "The project has already provided clean water to 100,000 people in 2024."),
     ("region", .str "Africa"),
     ("co2_saved_estimate_tonnes", .num 1),
     ("deforestation_prevented_km2", .num 1)]]

/-- The achievements decision (`metadata.py`, lines 272-276): always the
template for `i ≤ 50`, then the template exactly when the fresh uniform
draw `r = random.random()` satisfies `r < 0.01`, else the empty list. -/
def achievementsFor (i : ℕ) (r : ℚ) : List Json :=
  if i ≤ 50 ∨ r < 1/100 then achievementsTemplate else []

/-- The fixed citation list used for both `data_sources` fields
(`metadata.py`, lines 326-355 and 358-387). -/
def dataSources : Json :=
  .arr [.obj [("name", .str "NASA GISS"), ("url", .str "https://data.giss.nasa.gov/")],
    .obj [("name", .str "NOAA Climate Data"), ("url", .str "https://www.ncdc.noaa.gov/")],
    .obj [("name", .str "Microsoft Planetary Computer"), ("url", .str "https://planetarycomputer.microsoft.com/")],
    .obj [("name", .str "Open-Meteo"), ("url", .str "https://open-meteo.com/")],
    .obj [("name", .str "OpenTopography"), ("url", .str "https://opentopography.org/")],
    .obj [("name", .str "World Bank Climate Change Knowledge Portal"), ("url", .str "https://climateknowledgeportal.worldbank.org/")],
    .obj [("name", .str "FAO SoilGrids"), ("url", .str "https://www.isric.org/explore/soilgrids")]]

/-- The random draws and external-API payloads one loop iteration of
`metadata.py` (lines 254-291) consumes.  `co2ppm`…`seaLevel` stand for the
already-rounded world-condition values of lines 266-270; `weatherData` is
whatever `get_weather_data` returned (an object keyed by API source, lines
64-95); `geoOk` is modelled from the spec (see `genLoop`). -/
structure IterData where
  co2Saved : ℕ
  defPrev : ℕ
  mintedSecond : ℕ
  co2ppm : ℚ
  gtemp : ℚ
  ch4 : ℚ
  arcticIce : ℚ
  seaLevel : ℚ
  achRand : ℚ
  lat : ℚ
  lon : ℚ
  planetaryImage : Json
  weatherData : Json
  planetaryComputerData : Json
  environmentalData : Json
  geoOk : Bool

/-- The `world_conditions_on_mint` object of one record (`metadata.py`,
lines 309-356).  Note `coordinates` sits HERE, nested inside
`world_conditions_on_mint`, not directly under `token_details`. -/
def mkWorldConditions (d : IterData) (dt : CivilDT) : Json :=
  .obj [("co2_ppm", .num d.co2ppm),
    ("global_temperature_anomaly_c", .num d.gtemp),
    ("ch4_ppb", .num d.ch4),
    ("arctic_sea_ice_min_extent_million_km2", .num d.arcticIce),
    ("ice_sheets_status", .str "Net Mass Loss"),
    ("sea_level_mm_above_ref", .num d.seaLevel),
    ("ocean_warming_status", .str "Elevated"),
    ("nasa_image", .str (String.mk ("https://apod.nasa.gov/apod/calendar/S_".data ++ fmtCompact dt ++ ".jpg".data))),
    ("coordinates", .obj [("latitude", .num d.lat), ("longitude", .num d.lon)]),
    ("planetary_image", d.planetaryImage),
    ("weather_data", d.weatherData),
    ("environmental_data", d.environmentalData),
    ("planetary_computer_data", d.planetaryComputerData),
    ("data_sources", dataSources)]

/-- The full metadata record assembled by one loop iteration
(`metadata.py`, lines 294-390) for serial number `i`. -/
def mkMetadata (i : ℕ) (d : IterData) : Json :=
  let dt := civilFromSeconds (randomDate startSec endSec d.mintedSecond)
  .obj [("attributes", .arr
      [.obj [("trait_type", .str "CO2 Saved (tonnes)"), ("value", .num d.co2Saved)],
       .obj [("trait_type", .str "Deforestation Prevented (km^2)"), ("value", .num d.defPrev)]]),
    ("metadata_version", .str "1.0"),
    ("token_details", .obj
      [("timestamp_minted", .str (String.mk (fmtISO dt))),
       ("serial_number", .num i),
       ("world_conditions_on_mint", mkWorldConditions d dt),
       ("achievements", .arr (achievementsFor i d.achRand)),
       ("data_sources", dataSources),
       ("future_updates", .obj [])])]

/-- `f"{i}.txt"` (`metadata.py`, line 393). -/
def recFileName (i : ℕ) : String :=
  toString i ++ ".txt"

/-- Modelled from the spec: one GeoIndex point feature.  The GeoIndex code
is not part of the two source files; §3/§6 of the spec say each feature
carries a point geometry and the properties id, display name, co2_saved,
deforestation_prevented and minted_date. -/
structure GeoFeature where
  id : ℕ
  displayName : String
  co2Saved : ℕ
  defPrev : ℕ
  mintedDate : String
  lon : ℚ
  lat : ℚ

/-- Modelled from the spec: the GeoFeature appended for record `i` (point
geometry plus property bag). -/
def mkFeature (i : ℕ) (d : IterData) : GeoFeature :=
  let dt := civilFromSeconds (randomDate startSec endSec d.mintedSecond)
  ⟨i, toString i, d.co2Saved, d.defPrev, String.mk (fmtDateOnly dt), d.lon, d.lat⟩

/-- The observable output of the generation pass: the record files in
writing order, and the final GeoIndex FeatureCollection. -/
structure GenState where
  files : List (String × Json)
  geo : List GeoFeature

/-- The generation loop (`metadata.py`, lines 254-399) run for serial
numbers `1..n`, with `env i` the randomness and API payloads of iteration
`i`.  The record-file write is line 392-395 of the source; the GeoIndex
append is modelled from the spec (§4.4, §7): a feature is appended per
iteration, and a failed index update (`geoOk = false`) is caught and logged
while generation continues. -/
def genLoop (env : ℕ → IterData) : ℕ → GenState
  | 0 => ⟨[], []⟩
  | n + 1 =>
    let s := genLoop env n
    let i := n + 1
    ⟨s.files ++ [(recFileName i, mkMetadata i (env i))],
     if (env i).geoOk then s.geo ++ [mkFeature i (env i)] else s.geo⟩

/-! ## `metadata.py`: the land-coordinate sampler -/

/-- `get_random_land_coordinate` (`metadata.py`, lines 182-192).  `contains`
is the `land.contains` containment test of the boundary polygon (an external
collaborator), applied to the point `Point(lon, lat)`; `draws` is the stream
of `(random.uniform(-60, 80), random.uniform(-180, 180))` pairs the rejection
loop consumes.  The loop returns the first drawn pair whose point is
contained, and diverges if no draw ever is (so a `some` result captures every
terminating run). -/
def getRandomLandCoordinate (contains : ℚ × ℚ → Bool)
    (draws : List (ℚ × ℚ)) : Option (ℚ × ℚ) :=
  draws.find? (fun d => contains (d.2, d.1))

/-! ## Structural lemmas about the minifier -/

lemma buildC_eq_some {td c : Json} (h : buildC td = some c) :
    ∃ co la lo,
      td.get? "coordinates" = some co ∧
      co.get? "latitude" = some la ∧
      co.get? "longitude" = some lo ∧
      c = Json.obj [("la", la), ("lo", lo)] := by
  unfold buildC at h
  simp only [bind, Option.bind_eq_some, pure, Option.some.injEq] at h
  obtain ⟨co, hco, la, hla, lo, hlo, hc⟩ := h
  exact ⟨co, la, lo, hco, hla, hlo, hc.symm⟩

lemma buildWeatherD_eq_some {wc w : Json} (h : buildWeatherD wc = some w) :
    ∃ wd hourly hs hs',
      wc.get? "weather_data" = some wd ∧
      wd.get? "hourly" = some hourly ∧
      hourly.asArr = some hs ∧
      hourlyList hourlyEntryOpt hs = some hs' ∧
      w = Json.obj [("h", Json.arr hs')] := by
  unfold buildWeatherD at h
  simp only [bind, Option.bind_eq_some, pure, Option.some.injEq] at h
  obtain ⟨wd, hwd, hourly, hh, hs, hhs, hs', hhs', hw⟩ := h
  exact ⟨wd, hourly, hs, hs', hwd, hh, hhs, hhs', hw.symm⟩

lemma buildW_eq_some {wc w : Json} (h : buildW wc = some w) :
    ∃ cp gt ch ai sl ni pi wdObj,
      wc.getNum "co2_ppm" = some cp ∧
      wc.getNum "global_temperature_anomaly_c" = some gt ∧
      wc.getNum "ch4_ppb" = some ch ∧
      wc.getNum "arctic_sea_ice_min_extent_million_km2" = some ai ∧
      wc.getNum "sea_level_mm_above_ref" = some sl ∧
      wc.get? "nasa_image" = some ni ∧
      wc.get? "planetary_image" = some pi ∧
      buildWeatherD wc = some wdObj ∧
      w = Json.obj [("cp", Json.num (pyRound1 cp)), ("gt", Json.num (pyRound1 gt)),
        ("ch", Json.num (pyRound1 ch)), ("ai", Json.num (pyRound1 ai)),
        ("sl", Json.num (pyRound1 sl)), ("ni", ni), ("pi", pi),
        ("wd", wdObj)] := by
  unfold buildW at h
  simp only [bind, Option.bind_eq_some, pure, Option.some.injEq] at h
  obtain ⟨cp, hcp, gt, hgt, ch, hch, ai, hai, sl, hsl, ni, hni, pi, hpi, wdObj, hwd, hw⟩ := h
  exact ⟨cp, gt, ch, ai, sl, ni, pi, wdObj, hcp, hgt, hch, hai, hsl, hni, hpi, hwd, hw.symm⟩

lemma hourlyEntryOpt_eq_some {e h' : Json} (h : hourlyEntryOpt e = some h') :
    ∃ t te p hu ws wd cc pr,
      e.get? "time" = some t ∧
      e.getNum "temperature_2m" = some te ∧
      e.getNum "precipitation" = some p ∧
      e.getNum "relative_humidity_2m" = some hu ∧
      e.getNum "wind_speed_10m" = some ws ∧
      e.getNum "wind_direction_10m" = some wd ∧
      e.getNum "cloud_cover" = some cc ∧
      e.getNum "pressure_msl" = some pr ∧
      h' = Json.obj [("t", t), ("te", .num (pyRound1 te)), ("p", .num (pyRound1 p)),
        ("h", .num (pyRound1 hu)), ("ws", .num (pyRound1 ws)),
        ("wd", .num (pyRound1 wd)), ("cc", .num (pyRound1 cc)),
        ("pr", .num (pyRound1 pr))] := by
  unfold hourlyEntryOpt at h
  simp only [bind, Option.bind_eq_some, pure, Option.some.injEq] at h
  obtain ⟨x, hA, hrest⟩ := h
  obtain ⟨t, te, p, hu⟩ := x
  simp only [bind, Option.bind_eq_some, pure, Option.some.injEq] at hrest
  obtain ⟨ws, hws, wd, hwd, cc, hcc, pr, hpr, hout⟩ := hrest
  unfold hourlyEntryA at hA
  simp only [bind, Option.bind_eq_some, pure, Option.some.injEq, Prod.mk.injEq] at hA
  obtain ⟨t', ht, te', hte, p', hp, hu', hhu, rfl, rfl, rfl, rfl⟩ := hA
  exact ⟨t', te', p', hu', ws, wd, cc, pr, ht, hte, hp, hhu, hws, hwd, hcc, hpr, hout.symm⟩

lemma hourlyList_eq_some {f : Json → Option Json} :
    ∀ {l l' : List Json}, hourlyList f l = some l' →
      l'.length = l.length ∧
      ∀ k, k < l.length → ∃ x y, l.get? k = some x ∧ l'.get? k = some y ∧ f x = some y := by
  intro l
  induction l with
  | nil =>
    intro l' h
    simp only [hourlyList, Option.some.injEq] at h
    subst h
    exact ⟨rfl, fun k hk => absurd hk (by simp)⟩
  | cons x xs ih =>
    intro l' h
    simp only [hourlyList, bind, Option.bind_eq_some, pure, Option.some.injEq] at h
    obtain ⟨y, hy, ys, hys, hl'⟩ := h
    subst hl'
    obtain ⟨hlen, hk⟩ := ih hys
    refine ⟨by simp [hlen], ?_⟩
    intro k hk'
    cases k with
    | zero => exact ⟨x, y, rfl, rfl, hy⟩
    | succ k =>
      obtain ⟨a, b, ha, hb, hf⟩ := hk k (by simpa using hk')
      exact ⟨a, b, ha, hb, hf⟩

/-- What a successful `optimize_metadata` run implies: every lookup it
performs succeeded, and the shape of the object it returns. -/
lemma optimizeMetadata_eq_some {data out : Json} (h : optimizeMetadata data = some out) :
    ∃ v td ts sn c wc w ach,
      data.get? "metadata_version" = some v ∧
      data.get? "token_details" = some td ∧
      td.get? "timestamp_minted" = some ts ∧
      td.get? "serial_number" = some sn ∧
      buildC td = some c ∧
      td.get? "world_conditions_on_mint" = some wc ∧
      buildW wc = some w ∧
      td.get? "achievements" = some ach ∧
      out = Json.obj [("a", Json.arr []), ("v", v),
        ("t", Json.obj ([("ts", ts), ("sn", sn), ("c", c), ("w", w)] ++
          if ach.truthy then [("ac", ach)] else []))] := by
  unfold optimizeMetadata at h
  simp only [bind, Option.bind_eq_some, pure, Option.some.injEq] at h
  obtain ⟨v, hv, td, htd, ts, hts, sn, hsn, c, hc, wc, hwc, w, hw, ach, hach, hout⟩ := h
  exact ⟨v, td, ts, sn, c, wc, w, ach, hv, htd, hts, hsn, hc, hwc, hw, hach, hout.symm⟩

/-! ## A concrete full record in the layout the minifier accepts
(the compact-schema source layout of spec section 6, used by the concrete
scenario of the round-trip precision law and as a witness input) -/

def testHourlyEntry : Json :=
  .obj [("time", .str "2024-06-01T00:00"), ("temperature_2m", .num (917/50)),
    ("precipitation", .num (103/50)), ("relative_humidity_2m", .num 55),
    ("wind_speed_10m", .num 12), ("wind_direction_10m", .num 180),
    ("cloud_cover", .num 40), ("pressure_msl", .num 1013)]

def testRecord : Json :=
  .obj [("attributes", .arr []), ("metadata_version", .str "1.0"),
    ("token_details", .obj
      [("timestamp_minted", .str "2024-06-01T12:00:00Z"),
       ("serial_number", .num 1),
       ("coordinates", .obj [("latitude", .num 5), ("longitude", .num (-70))]),
       ("world_conditions_on_mint", .obj
         [("co2_ppm", .num (42137/100)),
          ("global_temperature_anomaly_c", .num (11/10)),
          ("ch4_ppb", .num 1900),
          ("arctic_sea_ice_min_extent_million_km2", .num (39/10)),
          ("sea_level_mm_above_ref", .num 95),
          ("nasa_image", .str "https://apod.nasa.gov/apod/calendar/S_240601.jpg"),
          ("planetary_image", .str "Not Available"),
          ("weather_data", .obj [("hourly", .arr [testHourlyEntry])])]),
       ("achievements", .arr [])])]

def testOptimized : Json :=
  (optimizeMetadata testRecord).getD .null

/-- C8: Minification is deterministic (the same full record always maps to
the same compact record), and applying `minify_file` a second time to a file
already holding a compact record is rejected: the compact record's top-level
keys are exactly `a`, `v`, `t`, so the second pass fails its very first
lookup `data["metadata_version"]`, `minify_file` returns `False`, and the
file content is left unchanged (no write occurs). -/
theorem minify_deterministic_and_rejects_compact (data out : Json)
    (h : optimizeMetadata data = some out) :
    (∀ data2, data2 = data → optimizeMetadata data2 = some out) ∧
    optimizeMetadata out = none ∧
    minifyFile (some out) = (false, some out) := by
  have hnone : optimizeMetadata out = none := by
    obtain ⟨v, td, ts, sn, c, wc, w, ach, -, -, -, -, -, -, -, -, hout⟩ :=
      optimizeMetadata_eq_some h
    subst hout
    rfl
  exact ⟨fun d2 hd2 => hd2 ▸ h, hnone, by simp [minifyFile, hnone]⟩

theorem minify_rejects_witness :
    optimizeMetadata testRecord = some testOptimized ∧
    (optimizeMetadata testOptimized = none ∧
      minifyFile (some testOptimized) = (false, some testOptimized)) :=
  ⟨rfl, (minify_deterministic_and_rejects_compact testRecord testOptimized rfl).2⟩

/-- C7: For every input record accepted by `optimize_metadata`, the compact
output has top-level `a` equal to the empty list regardless of the source's
attributes, `v` equal to the source `metadata_version`, `ni` and `pi` under
`t.w` equal to the source image URL values unchanged, and the key `ac` is
present under `t` if and only if the source achievements list is non-empty,
in which case it is that list copied verbatim. -/
theorem minifier_top_level (data out : Json) (xs : List Json)
    (h : optimizeMetadata data = some out)
    (hachs : data.getPath ["token_details", "achievements"] = some (.arr xs)) :
    out.get? "a" = some (.arr []) ∧
    (∃ v, data.get? "metadata_version" = some v ∧ out.get? "v" = some v) ∧
    (∃ ni, data.getPath ["token_details", "world_conditions_on_mint", "nasa_image"]
        = some ni ∧ out.getPath ["t", "w", "ni"] = some ni) ∧
    (∃ pim, data.getPath ["token_details", "world_conditions_on_mint", "planetary_image"]
        = some pim ∧ out.getPath ["t", "w", "pi"] = some pim) ∧
    (xs ≠ [] → out.getPath ["t", "ac"] = some (.arr xs)) ∧
    (xs = [] → out.getPath ["t", "ac"] = none) := by
  obtain ⟨v, td, ts, sn, c, wc, w, ach, hv, htd, hts, hsn, hc, hwc, hw, hach, hout⟩ :=
    optimizeMetadata_eq_some h
  obtain ⟨cp, gt, ch, ai, sl, ni, pim, wdObj, hcp, hgt, hch, hai, hsl, hni, hpim, hwdObj, hwshape⟩ :=
    buildW_eq_some hw
  have hachx : ach = Json.arr xs := by
    simp only [Json.getPath, htd, Option.some_bind, hach, Option.some.injEq] at hachs
    exact hachs
  subst hout hwshape hachx
  refine ⟨rfl, ⟨v, hv, rfl⟩, ⟨ni, ?_, rfl⟩, ⟨pim, ?_, rfl⟩, ?_, ?_⟩
  · simp only [Json.getPath, htd, Option.some_bind, hwc, hni]
  · simp only [Json.getPath, htd, Option.some_bind, hwc, hpim]
  · intro hne
    obtain ⟨y, ys, rfl⟩ := List.exists_cons_of_ne_nil hne
    rfl
  · intro he
    subst he
    rfl

/-- Witness for `minifier_top_level` at the concrete record `testRecord`
(whose achievements list is empty). -/
theorem minifier_top_level_witness :
    testOptimized.getPath ["t", "ac"] = none ∧ testOptimized.get? "a" = some (.arr []) :=
  ⟨(minifier_top_level testRecord testOptimized [] rfl rfl).2.2.2.2.2 rfl,
   (minifier_top_level testRecord testOptimized [] rfl rfl).1⟩

/-! ## Claims about the sampler, the achievements policy and the
generator/minifier schema mismatch -/

/-- A successful `List.find?` returns the first element satisfying the
predicate. -/
lemma find?_first {α : Type} (p : α → Bool) :
    ∀ (l : List α) (a : α), l.find? p = some a →
      ∃ k, l.get? k = some a ∧ ∀ j, j < k → ∀ b, l.get? j = some b → p b = false := by
  intro l
  induction l with
  | nil => intro a h; simp at h
  | cons x xs ih =>
    intro a h
    cases hpx : p x with
    | false =>
      rw [List.find?_cons_of_neg _ (by simp [hpx])] at h
      obtain ⟨k, hk, hfirst⟩ := ih a h
      refine ⟨k + 1, by simpa using hk, ?_⟩
      intro j hj b hb
      cases j with
      | zero =>
        simp only [List.get?_cons_zero, Option.some.injEq] at hb
        exact hb ▸ hpx
      | succ j => exact hfirst j (by omega) b (by simpa using hb)
    | true =>
      rw [List.find?_cons_of_pos _ hpx] at h
      injection h with h
      subst h
      exact ⟨0, rfl, fun j hj => absurd hj (by omega)⟩

/-- C2: Every coordinate pair returned by `get_random_land_coordinate` has
`lat ∈ [-60, 80]` and `lon ∈ [-180, 180]` (given `random.uniform`'s
contract on the draws), the point `(lon, lat)` satisfies the land-boundary
containment test, and the pair returned is the first drawn pair that does:
every earlier draw fails containment, so a point outside the boundary is
never returned. -/
theorem sampler_bounds_and_containment (contains : ℚ × ℚ → Bool)
    (draws : List (ℚ × ℚ)) (p : ℚ × ℚ)
    (hbox : ∀ d ∈ draws, -60 ≤ d.1 ∧ d.1 ≤ 80 ∧ -180 ≤ d.2 ∧ d.2 ≤ 180)
    (h : getRandomLandCoordinate contains draws = some p) :
    (-60 ≤ p.1 ∧ p.1 ≤ 80 ∧ -180 ≤ p.2 ∧ p.2 ≤ 180) ∧
    contains (p.2, p.1) = true ∧
    ∃ k, draws.get? k = some p ∧
      ∀ j, j < k → ∀ q, draws.get? j = some q → contains (q.2, q.1) = false := by
  unfold getRandomLandCoordinate at h
  refine ⟨hbox p (List.mem_of_find?_eq_some h), by simpa using List.find?_some h, ?_⟩
  obtain ⟨k, hk, hfirst⟩ := find?_first _ draws p h
  exact ⟨k, hk, fun j hj q hq => by simpa using hfirst j hj q hq⟩

theorem sampler_witness :
    (-60 ≤ ((10 : ℚ), (20 : ℚ)).1 ∧ ((10 : ℚ), (20 : ℚ)).1 ≤ 80 ∧
      -180 ≤ ((10 : ℚ), (20 : ℚ)).2 ∧ ((10 : ℚ), (20 : ℚ)).2 ≤ 180) ∧
    (fun _ : ℚ × ℚ => true) (((10 : ℚ), (20 : ℚ)).2, ((10 : ℚ), (20 : ℚ)).1) = true ∧
    ∃ k, [((10 : ℚ), (20 : ℚ))].get? k = some (10, 20) ∧
      ∀ j, j < k → ∀ q, [((10 : ℚ), (20 : ℚ))].get? j = some q →
        (fun _ : ℚ × ℚ => true) (q.2, q.1) = false :=
  sampler_bounds_and_containment (fun _ => true) [(10, 20)] (10, 20)
    (by intro d hd; simp at hd; subst hd; refine ⟨by norm_num, by norm_num, by norm_num, by norm_num⟩) rfl

/-- C3: A record with serial number `i ≤ 50` always receives the fixed
two-entry achievement template; a record with `i > 50` receives the template
exactly when its own fresh uniform draw is below 1% and the empty list
otherwise; in every case the achievements list is either the full two-entry
template or empty — never a partial or variant list. -/
theorem achievement_policy (i : ℕ) (r : ℚ) :
    (i ≤ 50 → achievementsFor i r = achievementsTemplate) ∧
    (50 < i → achievementsFor i r = if r < 1/100 then achievementsTemplate else []) ∧
    (achievementsFor i r = achievementsTemplate ∨ achievementsFor i r = []) ∧
    achievementsTemplate.length = 2 := by
  refine ⟨fun h => by simp [achievementsFor, h], fun h => ?_, ?_, rfl⟩
  · unfold achievementsFor
    have : ¬ i ≤ 50 := by omega
    by_cases hr : r < 1/100 <;> simp [hr, this]
  · unfold achievementsFor
    split_ifs <;> simp

theorem achievement_policy_witness :
    achievementsFor 7 (1/2) = achievementsTemplate ∧
    achievementsFor 60 (1/2) = if (1/2 : ℚ) < 1/100 then achievementsTemplate else [] :=
  ⟨(achievement_policy 7 (1/2)).1 (by norm_num), (achievement_policy 60 (1/2)).2.1 (by norm_num)⟩

/-- C1 (code bug): the claim fails on the code.  Every record assembled by
the generation loop nests `coordinates` inside `world_conditions_on_mint`
(so `token_details` has no `coordinates` key), and its `weather_data` is the
object `get_weather_data` returns (keyed by API source, with no `hourly`
key).  Consequently `optimize_metadata`'s lookup
`data["token_details"]["coordinates"]` raises `KeyError` on every generated
record and `minify_file` returns `False`, leaving the file unchanged. -/
theorem generated_record_rejected_by_minifier (i : ℕ) (d : IterData) :
    (mkMetadata i d).getPath ["token_details", "coordinates"] = none ∧
    (mkMetadata i d).getPath
      ["token_details", "world_conditions_on_mint", "coordinates", "latitude"]
      = some (.num d.lat) ∧
    (mkMetadata i d).getPath
      ["token_details", "world_conditions_on_mint", "weather_data"]
      = some d.weatherData ∧
    optimizeMetadata (mkMetadata i d) = none ∧
    minifyFile (some (mkMetadata i d)) = (false, some (mkMetadata i d)) :=
  ⟨rfl, rfl, rfl, rfl, rfl⟩

/-! ## Claims about batch counting, aggregation, and the empty-directory
behaviour of the minification engine -/

lemma processBatch_go (files : List (Option Json)) :
    ∀ acc : ℕ, files.foldl (fun acc f => if (minifyFile f).1 then acc + 1 else acc) acc
      = acc + (files.filter (fun f => (minifyFile f).1)).length := by
  induction files with
  | nil => intro acc; simp
  | cons x xs ih =>
    intro acc
    by_cases hx : (minifyFile x).1
    all_goals simp [List.foldl_cons, hx, ih]
    all_goals omega

lemma aggregateCounts_go (l : List ℕ) :
    ∀ acc : ℕ, l.foldl (fun acc c => acc + c) acc = acc + l.sum := by
  induction l with
  | nil => intro acc; simp
  | cons x xs ih => intro acc; simp [List.foldl_cons, ih]; omega

/-- C9: A per-file failure (unparseable JSON, or any failed lookup inside
`optimize_metadata`) is caught inside `minify_file`, which returns `False`
without touching the file; `process_batch` is total and returns exactly the
number of files of its batch that minified successfully, hence a count
between 0 and the batch length; and the engine's final `success_count` is
the sum of the per-batch counts, the same for every arrival order of the
batch results. -/
theorem batch_counting_and_aggregation (batch : List (Option Json))
    (batches : List (List (Option Json))) (order : List ℕ)
    (hperm : order.Perm (batches.map processBatch)) :
    processBatch batch = (batch.filter (fun f => (minifyFile f).1)).length ∧
    processBatch batch ≤ batch.length ∧
    (∀ j : Json, optimizeMetadata j = none → minifyFile (some j) = (false, some j)) ∧
    minifyFile none = (false, none) ∧
    aggregateCounts order = (batches.map processBatch).sum := by
  have hcount : processBatch batch = (batch.filter (fun f => (minifyFile f).1)).length := by
    simpa using processBatch_go batch 0
  refine ⟨hcount, ?_, ?_, rfl, ?_⟩
  · rw [hcount]; exact List.length_filter_le _ _
  · intro j hj; simp [minifyFile, hj]
  · rw [show aggregateCounts order = order.sum from by simpa using aggregateCounts_go order 0]
    exact hperm.sum_eq

theorem batch_counting_witness :
    processBatch [none, some testRecord]
      = ([none, some testRecord].filter (fun f => (minifyFile f).1)).length ∧
    aggregateCounts [0] = ([[(none : Option Json)]].map processBatch).sum :=
  ⟨(batch_counting_and_aggregation [none, some testRecord] [[none]] [0] (by decide)).1,
   (batch_counting_and_aggregation [none, some testRecord] [[none]] [0] (by decide)).2.2.2.2⟩

/-- C10 (counterexample): on a directory with no `.txt` files, `main` does
not fail with the `ZeroDivisionError` of the success-rate line — it fails
earlier, with the `ValueError` raised by `range(0, 0, 0)` while building
`file_batches` (`batch_size = (0 + P - 1) // P = 0`). -/
theorem empty_dir_counterexample :
    mainModel ["data.json", "readme.md"] (fun _ => none) 4
      = .error .rangeStepZero ∧
    mainModel ["data.json", "readme.md"] (fun _ => none) 4
      ≠ .error .divisionByZero := by
  refine ⟨rfl, fun h => ?_⟩
  have h2 : (Except.error MainError.rangeStepZero : Except MainError ℚ)
      = .error .divisionByZero :=
    (rfl : mainModel ["data.json", "readme.md"] (fun _ => none) 4
      = .error .rangeStepZero).symm.trans h
  exact MainError.noConfusion (Except.error.inj h2)

/-- C10 (amended): if the input directory contains zero files ending in
`.txt`, `main` still crashes instead of reporting an empty-run result, but
with the `range` step-zero `ValueError` at the batch-partitioning line,
reached before the success-rate division; the division-by-zero is
unreachable. -/
theorem no_txt_files_crashes_at_partition (listing : List String)
    (content : String → Option Json) (P : ℕ) (hP : 1 ≤ P)
    (hnone : ∀ f ∈ listing, endsWithTxt f = false) :
    mainModel listing content P = .error .rangeStepZero := by
  have hfil : listing.filter (fun f => endsWithTxt f) = [] := by
    rw [List.filter_eq_nil_iff]
    intro a ha
    simp [hnone a ha]
  unfold mainModel
  simp only [hfil, List.length_nil]
  rw [Nat.div_eq_of_lt (by omega)]
  rfl

theorem no_txt_files_witness :
    mainModel ["data.json"] (fun _ => none) 1 = .error .rangeStepZero :=
  no_txt_files_crashes_at_partition ["data.json"] (fun _ => none) 1 (by decide) (by decide)

/-! ## The round-trip precision law of the compaction mapping -/

/-- The compact record the minifier produces from `testRecord`, with its
roundings still unevaluated. -/
def testCompact : Json :=
  Json.obj [("a", Json.arr []), ("v", Json.str "1.0"),
    ("t", Json.obj [("ts", Json.str "2024-06-01T12:00:00Z"), ("sn", Json.num 1),
      ("c", Json.obj [("la", Json.num 5), ("lo", Json.num (-70))]),
      ("w", Json.obj [("cp", Json.num (pyRound1 (42137/100))),
        ("gt", Json.num (pyRound1 (11/10))),
        ("ch", Json.num (pyRound1 1900)), ("ai", Json.num (pyRound1 (39/10))),
        ("sl", Json.num (pyRound1 95)),
        ("ni", Json.str "https://apod.nasa.gov/apod/calendar/S_240601.jpg"),
        ("pi", Json.str "Not Available"),
        ("wd", Json.obj [("h", Json.arr [Json.obj [("t", Json.str "2024-06-01T00:00"),
          ("te", Json.num (pyRound1 (917/50))), ("p", Json.num (pyRound1 (103/50))),
          ("h", Json.num (pyRound1 55)), ("ws", Json.num (pyRound1 12)),
          ("wd", Json.num (pyRound1 180)), ("cc", Json.num (pyRound1 40)),
          ("pr", Json.num (pyRound1 1013))]])])])])]

/-- `optimize_metadata` on the concrete record succeeds and yields
`testCompact`. -/
lemma testRecord_optimizes : optimizeMetadata testRecord = some testCompact := rfl

lemma asArr_eq_some {j : Json} {xs : List Json} (h : j.asArr = some xs) : j = .arr xs := by
  cases j <;> simp [Json.asArr] at h
  exact congrArg Json.arr h

/-- C6: For every full record accepted by the compaction mapping, each
rounded numeric field of the compact output (`w.cp`, `w.gt`, `w.ch`,
`w.ai`, `w.sl` and the hourly fields `te`, `p`, `h`, `ws`, `wd`, `cc`,
`pr`) equals the corresponding source field rounded to one decimal place
(Python `round`, ties to even); in particular the concrete source with
`co2_ppm = 421.37`, `global_temperature_anomaly_c = 1.10` and an hourly
entry with `temperature_2m = 18.34`, `precipitation = 2.06` yields
`w.cp = 421.4`, `w.gt = 1.1`, `wd.h[0].te = 18.3`, `wd.h[0].p = 2.1`. -/
theorem minifier_rounds_to_one_decimal (data out : Json)
    (h : optimizeMetadata data = some out) :
    (∃ wc cp gt ch ai sl,
      data.getPath ["token_details", "world_conditions_on_mint"] = some wc ∧
      wc.getNum "co2_ppm" = some cp ∧
        out.getPath ["t", "w", "cp"] = some (.num (pyRound1 cp)) ∧
      wc.getNum "global_temperature_anomaly_c" = some gt ∧
        out.getPath ["t", "w", "gt"] = some (.num (pyRound1 gt)) ∧
      wc.getNum "ch4_ppb" = some ch ∧
        out.getPath ["t", "w", "ch"] = some (.num (pyRound1 ch)) ∧
      wc.getNum "arctic_sea_ice_min_extent_million_km2" = some ai ∧
        out.getPath ["t", "w", "ai"] = some (.num (pyRound1 ai)) ∧
      wc.getNum "sea_level_mm_above_ref" = some sl ∧
        out.getPath ["t", "w", "sl"] = some (.num (pyRound1 sl))) ∧
    (∃ hs hs',
      data.getPath ["token_details", "world_conditions_on_mint", "weather_data", "hourly"]
        = some (.arr hs) ∧
      out.getPath ["t", "w", "wd", "h"] = some (.arr hs') ∧
      hs'.length = hs.length ∧
      ∀ k, k < hs.length → ∀ e, hs.get? k = some e →
        ∃ t te p hu ws wd cc pr,
          e.get? "time" = some t ∧
          e.getNum "temperature_2m" = some te ∧
          e.getNum "precipitation" = some p ∧
          e.getNum "relative_humidity_2m" = some hu ∧
          e.getNum "wind_speed_10m" = some ws ∧
          e.getNum "wind_direction_10m" = some wd ∧
          e.getNum "cloud_cover" = some cc ∧
          e.getNum "pressure_msl" = some pr ∧
          hs'.get? k = some (.obj [("t", t), ("te", .num (pyRound1 te)),
            ("p", .num (pyRound1 p)), ("h", .num (pyRound1 hu)),
            ("ws", .num (pyRound1 ws)), ("wd", .num (pyRound1 wd)),
            ("cc", .num (pyRound1 cc)), ("pr", .num (pyRound1 pr))])) ∧
    optimizeMetadata testRecord = some testCompact ∧
    testCompact.getPath ["t", "w", "cp"] = some (.num (2107/5)) ∧
    testCompact.getPath ["t", "w", "gt"] = some (.num (11/10)) ∧
    testCompact.getPath ["t", "w", "wd", "h"]
      = some (.arr [.obj [("t", .str "2024-06-01T00:00"), ("te", .num (183/10)),
        ("p", .num (21/10)), ("h", .num 55), ("ws", .num 12), ("wd", .num 180),
        ("cc", .num 40), ("pr", .num 1013)]]) := by
  obtain ⟨v, td, ts, sn, c, wc, w, ach, hv, htd, hts, hsn, hc, hwc, hw, hach, hout⟩ :=
    optimizeMetadata_eq_some h
  obtain ⟨cp, gt, ch, ai, sl, ni, pim, wdObj, hcp, hgt, hch, hai, hsl, hni, hpim, hwdObj, hwshape⟩ :=
    buildW_eq_some hw
  obtain ⟨wd, hourly, hs, hs', hwd, hhourly, hasarr, hmap, hwdshape⟩ :=
    buildWeatherD_eq_some hwdObj
  have harr : hourly = Json.arr hs := asArr_eq_some hasarr
  subst hout hwshape hwdshape harr
  obtain ⟨hlen, hidx⟩ := hourlyList_eq_some hmap
  refine ⟨⟨wc, cp, gt, ch, ai, sl, ?_, hcp, rfl, hgt, rfl, hch, rfl, hai, rfl, hsl, rfl⟩,
    ⟨hs, hs', ?_, rfl, hlen, ?_⟩, testRecord_optimizes, ?_, ?_, ?_⟩
  · simp only [Json.getPath, htd, Option.some_bind, hwc]
  · simp only [Json.getPath, htd, Option.some_bind, hwc, hwd, hhourly]
  · intro k hk e he
    obtain ⟨x, y, hx, hy, hf⟩ := hidx k hk
    have hex : e = x := Option.some.inj (he.symm.trans hx)
    subst hex
    obtain ⟨t, te, p, hu, ws, wdv, cc, pr, ht, hte, hp, hhu, hws, hwdv, hcc, hpr, hyshape⟩ :=
      hourlyEntryOpt_eq_some hf
    subst hyshape
    exact ⟨t, te, p, hu, ws, wdv, cc, pr, ht, hte, hp, hhu, hws, hwdv, hcc, hpr, hy⟩
  · show some (Json.num (pyRound1 (42137/100))) = some (.num (2107/5))
    rw [show pyRound1 (42137/100) = 2107/5 from by norm_num [pyRound1, roundHalfEven]]
  · show some (Json.num (pyRound1 (11/10))) = some (.num (11/10))
    rw [show pyRound1 (11/10) = 11/10 from by norm_num [pyRound1, roundHalfEven]]
  · show some (Json.arr [Json.obj [("t", Json.str "2024-06-01T00:00"),
      ("te", Json.num (pyRound1 (917/50))), ("p", Json.num (pyRound1 (103/50))),
      ("h", Json.num (pyRound1 55)), ("ws", Json.num (pyRound1 12)),
      ("wd", Json.num (pyRound1 180)), ("cc", Json.num (pyRound1 40)),
      ("pr", Json.num (pyRound1 1013))]])
      = some (Json.arr [Json.obj [("t", Json.str "2024-06-01T00:00"),
      ("te", Json.num (183/10)), ("p", Json.num (21/10)),
      ("h", Json.num 55), ("ws", Json.num 12),
      ("wd", Json.num 180), ("cc", Json.num 40),
      ("pr", Json.num 1013)]])
    rw [show pyRound1 (917/50) = 183/10 from by norm_num [pyRound1, roundHalfEven],
      show pyRound1 (103/50) = 21/10 from by norm_num [pyRound1, roundHalfEven],
      show pyRound1 55 = 55 from by norm_num [pyRound1, roundHalfEven],
      show pyRound1 12 = 12 from by norm_num [pyRound1, roundHalfEven],
      show pyRound1 180 = 180 from by norm_num [pyRound1, roundHalfEven],
      show pyRound1 40 = 40 from by norm_num [pyRound1, roundHalfEven],
      show pyRound1 1013 = 1013 from by norm_num [pyRound1, roundHalfEven]]

/-- Witness for `minifier_rounds_to_one_decimal` at the concrete record. -/
theorem minifier_rounding_witness :
    testCompact.getPath ["t", "w", "cp"] = some (.num (2107/5)) ∧
    testCompact.getPath ["t", "w", "gt"] = some (.num (11/10)) :=
  ⟨(minifier_rounds_to_one_decimal testRecord testCompact testRecord_optimizes).2.2.2.1,
   (minifier_rounds_to_one_decimal testRecord testCompact testRecord_optimizes).2.2.2.2.1⟩

/-! ## Minted timestamps: range and agreement of the three date strings -/

lemma digit_facts : ∀ k, k < 10 → (Nat.digitChar k).isDigit = true ∧ (Nat.digitChar k).toNat = 48 + k := by decide

lemma isDigit_digitChar_mod (n : ℕ) : (Nat.digitChar (n % 10)).isDigit = true :=
  (digit_facts _ (Nat.mod_lt _ (by norm_num))).1

lemma toNat_digitChar_mod (n : ℕ) : (Nat.digitChar (n % 10)).toNat = 48 + n % 10 :=
  (digit_facts _ (Nat.mod_lt _ (by norm_num))).2

lemma decodeDateOnly_fmt (dt : CivilDT) (hy : dt.year < 10000)
    (hm : dt.month < 100) (hd : dt.day < 100) :
    decodeDateOnly (fmtDateOnly dt) = some (dt.year, dt.month, dt.day) := by
  obtain ⟨y, m, d, hh, mi, sec⟩ := dt
  dsimp only at hy hm hd
  simp only [fmtDateOnly, pad4, pad2, List.cons_append, List.nil_append]
  simp only [decodeDateOnly, charVal, isDigit_digitChar_mod, toNat_digitChar_mod,
    Bool.and_self, if_true, Option.some.injEq, Prod.mk.injEq]
  refine ⟨by omega, by omega, by omega⟩

lemma decodeISO_fmt (dt : CivilDT) (hy : dt.year < 10000)
    (hm : dt.month < 100) (hd : dt.day < 100) (hhr : dt.hour < 100)
    (hmin : dt.minute < 100) (hsec : dt.second < 100) :
    decodeISO (fmtISO dt)
      = some (dt.year, dt.month, dt.day, dt.hour, dt.minute, dt.second) := by
  obtain ⟨y, m, d, hh, mi, sec⟩ := dt
  dsimp only at hy hm hd hhr hmin hsec
  simp only [fmtISO, pad4, pad2, List.cons_append, List.nil_append]
  simp only [decodeISO, charVal, isDigit_digitChar_mod, toNat_digitChar_mod,
    Bool.and_self, if_true, Option.some.injEq, Prod.mk.injEq]
  refine ⟨by omega, by omega, by omega, by omega, by omega, by omega⟩

lemma decodeCompact_fmt (dt : CivilDT) (hm : dt.month < 100) (hd : dt.day < 100) :
    decodeCompact (fmtCompact dt) = some (dt.year % 100, dt.month, dt.day) := by
  obtain ⟨y, m, d, hh, mi, sec⟩ := dt
  dsimp only at hm hd
  simp only [fmtCompact, pad2, List.cons_append, List.nil_append]
  simp only [decodeCompact, charVal, isDigit_digitChar_mod, toNat_digitChar_mod,
    Bool.and_self, if_true, Option.some.injEq, Prod.mk.injEq]
  refine ⟨by omega, by omega, by omega⟩

lemma civilFromDays_bounds (z : ℕ) (h1 : 19723 ≤ z) (h2 : z ≤ 20180) :
    (civilFromDays z).1 < 10000 ∧
    1 ≤ (civilFromDays z).2.1 ∧ (civilFromDays z).2.1 ≤ 12 ∧
    1 ≤ (civilFromDays z).2.2 ∧ (civilFromDays z).2.2 ≤ 31 := by
  simp only [civilFromDays]
  split_ifs <;> refine ⟨by omega, by omega, by omega, by omega, by omega⟩

lemma startSec_eq : startSec = 1704067200 := by decide

lemma endSec_eq : endSec = 1743638399 := by decide

/-- C4: `random_date(start, end)` with `end ≥ start` returns an instant `t`
with `start ≤ t ≤ end`; for the configured interval
[2024-01-01T00:00:00, 2025-04-02T23:59:59] every minted timestamp lies in
range, and the three derived strings — `%Y-%m-%dT%H:%M:%SZ`, `%Y-%m-%d`
and `%y%m%d` — are all formatted from the calendar decomposition of that
same instant: explicit decoders recover from them the same year, month and
day (the ISO string additionally the time of day, the compact string the
two-digit year). -/
theorem minted_timestamp_and_date_strings (s : ℕ) (hs : s ≤ intDelta) :
    (∀ a b r, a ≤ b → r ≤ b - a → a ≤ randomDate a b r ∧ randomDate a b r ≤ b) ∧
    startSec ≤ randomDate startSec endSec s ∧
    randomDate startSec endSec s ≤ endSec ∧
    decodeISO (fmtISO (civilFromSeconds (randomDate startSec endSec s)))
      = some ((civilFromSeconds (randomDate startSec endSec s)).year,
        (civilFromSeconds (randomDate startSec endSec s)).month,
        (civilFromSeconds (randomDate startSec endSec s)).day,
        (civilFromSeconds (randomDate startSec endSec s)).hour,
        (civilFromSeconds (randomDate startSec endSec s)).minute,
        (civilFromSeconds (randomDate startSec endSec s)).second) ∧
    decodeDateOnly (fmtDateOnly (civilFromSeconds (randomDate startSec endSec s)))
      = some ((civilFromSeconds (randomDate startSec endSec s)).year,
        (civilFromSeconds (randomDate startSec endSec s)).month,
        (civilFromSeconds (randomDate startSec endSec s)).day) ∧
    decodeCompact (fmtCompact (civilFromSeconds (randomDate startSec endSec s)))
      = some ((civilFromSeconds (randomDate startSec endSec s)).year % 100,
        (civilFromSeconds (randomDate startSec endSec s)).month,
        (civilFromSeconds (randomDate startSec endSec s)).day) := by
  have hds : startSec = 1704067200 := startSec_eq
  have hde : endSec = 1743638399 := endSec_eq
  have hdelta : intDelta = 39571199 := by rw [intDelta, hds, hde]
  have ht1 : startSec ≤ randomDate startSec endSec s := by
    unfold randomDate; omega
  have ht2 : randomDate startSec endSec s ≤ endSec := by
    unfold randomDate; omega
  have hdays1 : 19723 ≤ randomDate startSec endSec s / 86400 := by omega
  have hdays2 : randomDate startSec endSec s / 86400 ≤ 20180 := by omega
  obtain ⟨hby, hbm1, hbm2, hbd1, hbd2⟩ :=
    civilFromDays_bounds (randomDate startSec endSec s / 86400) hdays1 hdays2
  have hfields :
      (civilFromSeconds (randomDate startSec endSec s)).year
          = (civilFromDays (randomDate startSec endSec s / 86400)).1 ∧
      (civilFromSeconds (randomDate startSec endSec s)).month
          = (civilFromDays (randomDate startSec endSec s / 86400)).2.1 ∧
      (civilFromSeconds (randomDate startSec endSec s)).day
          = (civilFromDays (randomDate startSec endSec s / 86400)).2.2 ∧
      (civilFromSeconds (randomDate startSec endSec s)).hour
          = randomDate startSec endSec s % 86400 / 3600 ∧
      (civilFromSeconds (randomDate startSec endSec s)).minute
          = randomDate startSec endSec s % 86400 % 3600 / 60 ∧
      (civilFromSeconds (randomDate startSec endSec s)).second
          = randomDate startSec endSec s % 86400 % 60 := by
    simp [civilFromSeconds]
  obtain ⟨hfy, hfm, hfd, hfh, hfmi, hfs⟩ := hfields
  refine ⟨fun a b r hab hr => by unfold randomDate; omega, ht1, ht2, ?_, ?_, ?_⟩
  · exact decodeISO_fmt _ (by omega) (by omega) (by omega) (by omega) (by omega) (by omega)
  · exact decodeDateOnly_fmt _ (by omega) (by omega) (by omega)
  · exact decodeCompact_fmt _ (by omega) (by omega)

/-- Witness for `minted_timestamp_and_date_strings` at the draw `s = 0`. -/
theorem minted_timestamp_witness :
    startSec ≤ randomDate startSec endSec 0 ∧
    randomDate startSec endSec 0 ≤ endSec ∧
    decodeDateOnly (fmtDateOnly (civilFromSeconds (randomDate startSec endSec 0)))
      = some ((civilFromSeconds (randomDate startSec endSec 0)).year,
        (civilFromSeconds (randomDate startSec endSec 0)).month,
        (civilFromSeconds (randomDate startSec endSec 0)).day) :=
  ⟨(minted_timestamp_and_date_strings 0 (Nat.zero_le _)).2.1,
   (minted_timestamp_and_date_strings 0 (Nat.zero_le _)).2.2.1,
   (minted_timestamp_and_date_strings 0 (Nat.zero_le _)).2.2.2.2.1⟩

/-! ## The generation pass: dense serial numbers and GeoIndex ids -/

lemma mkMetadata_serial (i : ℕ) (d : IterData) :
    (mkMetadata i d).getPath ["token_details", "serial_number"] = some (Json.num i) := rfl

/-- C5: Running the generation pass for `N` records produces exactly `N`
record files, named `1.txt` … `N.txt` in order, whose records carry serial
numbers forming the dense set `{1..N}` (file `i.txt` contains
`serial_number i`); and — absent logged index-update failures — the
GeoIndex holds exactly `N` point features whose ids are `{1..N}` (GeoIndex
side modelled from the spec; its code is not under src/). -/
theorem generation_dense_serials_and_geo_ids (env : ℕ → IterData) (N : ℕ) :
    (genLoop env N).files.length = N ∧
    (genLoop env N).files.map Prod.fst = (List.range' 1 N).map recFileName ∧
    (genLoop env N).files.map (fun f => f.2.getPath ["token_details", "serial_number"])
      = (List.range' 1 N).map (fun i : ℕ => some (Json.num (i : ℚ))) ∧
    ((∀ i, (env i).geoOk = true) →
      (genLoop env N).geo.length = N ∧
      (genLoop env N).geo.map GeoFeature.id = List.range' 1 N) := by
  induction N with
  | zero => exact ⟨rfl, rfl, rfl, fun _ => ⟨rfl, rfl⟩⟩
  | succ n ih =>
    obtain ⟨ihlen, ihnames, ihserials, ihgeo⟩ := ih
    refine ⟨?_, ?_, ?_, ?_⟩
    · simp [genLoop, ihlen]
    · rw [List.range'_1_concat]
      simp only [genLoop, List.map_append, List.map_cons, List.map_nil, ihnames]
      rw [show 1 + n = n + 1 from by omega]
    · rw [List.range'_1_concat]
      simp only [genLoop, List.map_append, List.map_cons, List.map_nil, ihserials,
        mkMetadata_serial]
      rw [show 1 + n = n + 1 from by omega]
    · intro hok
      obtain ⟨glen, gids⟩ := ihgeo hok
      have hgeo : (genLoop env (n + 1)).geo = (genLoop env n).geo ++ [mkFeature (n + 1) (env (n + 1))] := by
        simp [genLoop, hok (n + 1)]
      rw [hgeo, List.range'_1_concat]
      constructor
      · simp [glen]
      · simp only [List.map_append, List.map_cons, List.map_nil, gids, mkFeature]
        rw [show 1 + n = n + 1 from by omega]

/-- A concrete per-iteration environment for the generation-loop witness. -/
def constIter : IterData :=
  ⟨100, 10, 0, 420, 1, 1900, 4, 95, 1/2, 5, -70, .str "Not Available",
   .obj [], .obj [], .obj [], true⟩

/-- Witness for `generation_dense_serials_and_geo_ids` with two records. -/
theorem generation_witness :
    (∀ i, ((fun _ : ℕ => constIter) i).geoOk = true) ∧
    (genLoop (fun _ => constIter) 2).files.length = 2 ∧
    (genLoop (fun _ => constIter) 2).files.map Prod.fst
      = (List.range' 1 2).map recFileName ∧
    (genLoop (fun _ => constIter) 2).geo.map GeoFeature.id = List.range' 1 2 :=
  ⟨fun _ => rfl,
   (generation_dense_serials_and_geo_ids (fun _ => constIter) 2).1,
   (generation_dense_serials_and_geo_ids (fun _ => constIter) 2).2.1,
   ((generation_dense_serials_and_geo_ids (fun _ => constIter) 2).2.2.2
     (fun _ => rfl)).2⟩
